import Mathlib

/-
Verification development for the crowd-analytics engine
(ml-module/analytics/crowd_analyzer.py together with the constants in
ml-module/config.py).

Modelling conventions:
- Python floats are modelled as exact rationals; the arithmetic of the
  analytics functions is rational throughout, except for the motion
  estimator, whose Euclidean distances involve square roots and are
  modelled over the reals.
- The functions calculate_density_score and classify_risk are stated
  polymorphically over a linear ordered field with a floor so that the
  same definition serves the executable rational instance and the real
  instance used inside analyze.
- Python round(x, 2) is modelled as exact round-half-to-even at two
  decimal places.
- numpy fancy indexing grid[i, j] admits negative indices down to the
  negated axis length and raises IndexError outside that range; this is
  modelled by npIndex returning an Option, and detect_high_density_zones
  and analyze returning an Except value.
-/

namespace CrowdGuard

/-- Configuration constant DENSITY_GRID_SIZE from config.py. -/
def DENSITY_GRID_SIZE : ℕ := 50

/-- Configuration constant HIGH_DENSITY_THRESHOLD from config.py. -/
def HIGH_DENSITY_THRESHOLD : ℕ := 5

/-- Configuration constant ANOMALY_MOVEMENT_THRESHOLD from config.py. -/
def ANOMALY_MOVEMENT_THRESHOLD : ℕ := 50

/-- Configuration constant CLUSTERING_EPS from config.py. -/
def CLUSTERING_EPS : ℕ := 100

/-- Configuration constant MIN_CLUSTER_SIZE from config.py. -/
def MIN_CLUSTER_SIZE : ℕ := 10

/-- Round to the nearest integer, ties to even, as Python round does. -/
def halfEvenRound {α : Type} [LinearOrderedField α] [FloorRing α] (x : α) : ℤ :=
  let f : ℤ := ⌊x⌋
  let r : α := x - (f : α)
  if r < 1 / 2 then f
  else if 1 / 2 < r then f + 1
  else if f % 2 = 0 then f else f + 1

/-- Python round(x, 2): round to two decimal places, ties to even. -/
def round2 {α : Type} [LinearOrderedField α] [FloorRing α] (x : α) : α :=
  ((halfEvenRound (x * 100) : ℤ) : α) / 100

/-- Python int() applied to a number: truncation toward zero. -/
def pyTrunc (q : ℚ) : ℤ :=
  if q < 0 then ⌈q⌉ else ⌊q⌋

/-- Resolution of a numpy index i on an axis of length n: nonnegative
indices must be below n, negative indices count from the end down to -n,
and anything else raises IndexError (modelled as none). -/
def npIndex (n : ℕ) (i : ℤ) : Option ℕ :=
  if 0 ≤ i ∧ i < (n : ℤ) then some i.toNat
  else if -(n : ℤ) ≤ i ∧ i < 0 then some (i + n).toNat
  else none

/-- Risk level classification (class RiskLevel). -/
inductive RiskLevel where
  | LOW
  | MEDIUM
  | HIGH
  | CRITICAL
deriving DecidableEq, Repr

/-- Types of crowd anomalies (class AnomalyType). -/
inductive AnomalyType where
  | SUDDEN_MOVEMENT
  | HIGH_DENSITY
  | CLUSTERING
  | RUSH_BEHAVIOR
  | NORMAL
deriving DecidableEq, Repr

/-- A high-density zone dict as built by detect_high_density_zones. -/
structure Zone where
  grid_position : ℕ × ℕ
  bbox : ℕ × ℕ × ℕ × ℕ
  person_count : ℕ
  density_level : String
deriving DecidableEq, Repr

/-- A cluster dict as built by detect_clusters. -/
structure Cluster where
  cluster_id : ℤ
  size : ℕ
  center : ℚ × ℚ
  bbox : ℤ × ℤ × ℤ × ℤ
  area : ℤ
deriving DecidableEq, Repr

/-- A person detection; analyze reads only the center field of the
detection dict (bbox, confidence and area are not consulted). -/
structure Detection where
  center : ℚ × ℚ
deriving DecidableEq, Repr

/-- State of a CrowdAnalyzer instance. The constructor fixes grid_size
to DENSITY_GRID_SIZE; previous_positions starts as None. -/
structure CrowdAnalyzer where
  frame_height : ℕ
  frame_width : ℕ
  grid_size : ℕ
  previous_positions : Option (List (ℚ × ℚ))
deriving DecidableEq, Repr

/-- Derived field frame_area = frame_height * frame_width. -/
def CrowdAnalyzer.frame_area (a : CrowdAnalyzer) : ℕ :=
  a.frame_height * a.frame_width

/-- CrowdAnalyzer.__init__ applied to frame_shape = (height, width). -/
def mkCrowdAnalyzer (frame_shape : ℕ × ℕ) : CrowdAnalyzer :=
  { frame_height := frame_shape.1
    frame_width := frame_shape.2
    grid_size := DENSITY_GRID_SIZE
    previous_positions := none }

/-- CrowdAnalyzer.calculate_density_score. -/
def calculate_density_score {α : Type} [LinearOrderedField α] [FloorRing α]
    (a : CrowdAnalyzer) (person_count : ℕ) : α :=
  if a.frame_area = 0 then 0
  else
    let pixels_per_sqm : α := 10000
    let frame_area_sqm : α := (a.frame_area : α) / pixels_per_sqm
    let density : α := (person_count : α) / max frame_area_sqm 1
    let density_score : α := min (density / 2 * 100) 100
    round2 density_score

/-- CrowdAnalyzer.classify_risk. -/
def classify_risk {α : Type} [LinearOrderedField α] [FloorRing α]
    (person_count : ℕ) (density_score : α) (high_density_zones : List Zone)
    (avg_velocity : α) : RiskLevel × α × AnomalyType :=
  let risk_score : α := 0
  let risk_score := risk_score + density_score * 0.4
  let zone_factor : α := min ((high_density_zones.length : α) * 10) 30
  let risk_score := risk_score + zone_factor
  let velocity_factor : α :=
    min (avg_velocity / (ANOMALY_MOVEMENT_THRESHOLD : α) * 20) 20
  let risk_score := risk_score + velocity_factor
  let count_factor : α := min ((person_count : α) / 100 * 10) 10
  let risk_score := risk_score + count_factor
  let risk_score := min risk_score 100
  let risk_level :=
    if risk_score < 25 then RiskLevel.LOW
    else if risk_score < 50 then RiskLevel.MEDIUM
    else if risk_score < 75 then RiskLevel.HIGH
    else RiskLevel.CRITICAL
  let anomaly_type := AnomalyType.NORMAL
  let anomaly_type :=
    if (ANOMALY_MOVEMENT_THRESHOLD : α) < avg_velocity then AnomalyType.SUDDEN_MOVEMENT
    else if 3 < high_density_zones.length then AnomalyType.HIGH_DENSITY
    else if (70 : α) < density_score then AnomalyType.CLUSTERING
    else anomaly_type
  let anomaly_type :=
    if risk_level = RiskLevel.CRITICAL then AnomalyType.RUSH_BEHAVIOR else anomaly_type
  (risk_level, round2 risk_score, anomaly_type)

/-- One tallying step of CrowdAnalyzer.detect_high_density_zones: clamp the
cell coordinates of one center with min against the last row and column and
increment grid_counts[grid_y, grid_x], with numpy index semantics. -/
def tallyCenters (gs gh gw : ℕ) :
    List (ℚ × ℚ) → (ℕ → ℕ → ℕ) → Except String (ℕ → ℕ → ℕ)
  | [], grid => .ok grid
  | p :: ps, grid =>
    let grid_x : ℤ := min (pyTrunc (p.1 / (gs : ℚ))) ((gw : ℤ) - 1)
    let grid_y : ℤ := min (pyTrunc (p.2 / (gs : ℚ))) ((gh : ℤ) - 1)
    match npIndex gh grid_y, npIndex gw grid_x with
    | some i, some j =>
        tallyCenters gs gh gw ps
          (fun r c => if r = i ∧ c = j then grid r c + 1 else grid r c)
    | _, _ => .error "IndexError"

/-- CrowdAnalyzer.detect_high_density_zones. The scan over the grid runs
row index i over range (frame_height // grid_size) and column index j over
range (frame_width // grid_size), emitting a Zone for each cell meeting the
threshold; an out-of-range numpy index surfaces as an IndexError value. -/
def detect_high_density_zones (a : CrowdAnalyzer) (centers : List (ℚ × ℚ)) :
    Except String (List Zone) :=
  if centers.length = 0 then .ok []
  else
    let grid_h := a.frame_height / a.grid_size
    let grid_w := a.frame_width / a.grid_size
    match tallyCenters a.grid_size grid_h grid_w centers (fun _ _ => 0) with
    | .error e => .error e
    | .ok grid_counts =>
      .ok ((List.range grid_h).flatMap (fun i =>
        (List.range grid_w).filterMap (fun j =>
          let count := grid_counts i j
          if HIGH_DENSITY_THRESHOLD ≤ count then
            some { grid_position := (j, i)
                   bbox := (j * a.grid_size, i * a.grid_size,
                            (j + 1) * a.grid_size, (i + 1) * a.grid_size)
                   person_count := count
                   density_level :=
                     if HIGH_DENSITY_THRESHOLD * 2 < count then "critical" else "high" }
          else none)))

/-- Labels in first-encounter order without duplicates; stands for the
iteration over set(labels) in detect_clusters (the concrete iteration order
of a Python set is unspecified, and no claim depends on it). -/
def uniqueLabels (labels : List ℤ) : List ℤ :=
  labels.foldl (fun acc l => if l ∈ acc then acc else acc ++ [l]) []

/-- Rows of centers whose DBSCAN label equals l, in order: the numpy
selection centers[labels == label]. -/
def ptsWithLabel (l : ℤ) (centers : List (ℚ × ℚ)) (labels : List ℤ) :
    List (ℚ × ℚ) :=
  ((centers.zip labels).filter (fun pl => pl.2 == l)).map Prod.fst

/-- The cluster dict built for one label from its selected points:
componentwise mean as center, componentwise min and max as bounding box,
and area from the bounding box sides, with Python int truncation. -/
def buildCluster (l : ℤ) : List (ℚ × ℚ) → Option Cluster
  | [] => none
  | p :: ps =>
    let n : ℕ := ps.length + 1
    let cx : ℚ := (p.1 + (ps.map Prod.fst).sum) / (n : ℚ)
    let cy : ℚ := (p.2 + (ps.map Prod.snd).sum) / (n : ℚ)
    let x_min : ℚ := ps.foldl (fun m q => min m q.1) p.1
    let y_min : ℚ := ps.foldl (fun m q => min m q.2) p.2
    let x_max : ℚ := ps.foldl (fun m q => max m q.1) p.1
    let y_max : ℚ := ps.foldl (fun m q => max m q.2) p.2
    some { cluster_id := l
           size := n
           center := (cx, cy)
           bbox := (pyTrunc x_min, pyTrunc y_min, pyTrunc x_max, pyTrunc y_max)
           area := pyTrunc ((x_max - x_min) * (y_max - y_min)) }

/-- The clusters list of detect_clusters as accumulated by its loop, before
sorting: one Cluster per non-noise label, in encounter order. -/
def built_clusters (labels : List ℤ) (centers : List (ℚ × ℚ)) : List Cluster :=
  (uniqueLabels labels).filterMap (fun l =>
    if l = -1 then none else buildCluster l (ptsWithLabel l centers labels))

/-- Stable insertion into a size-descending list: the new cluster goes in
front of the first cluster whose size is not larger, which keeps clusters
of equal size in their original relative order. -/
def insertDesc (c : Cluster) : List Cluster → List Cluster
  | [] => [c]
  | d :: ds => if d.size ≤ c.size then c :: d :: ds else d :: insertDesc c ds

/-- Stable sort by size descending; the functional behavior of the Python
clusters.sort(key=size, reverse=True), which is a stable sort. -/
def sortClustersDesc : List Cluster → List Cluster
  | [] => []
  | c :: cs => insertDesc c (sortClustersDesc cs)

/-- CrowdAnalyzer.detect_clusters. The DBSCAN labelling itself is done by
scikit-learn, which is outside this repository; it is modelled as the
parameter labelFn assigning an integer label to each center, noise being
-1. Every property proved about detect_clusters holds for all labelFn and
so in particular for the DBSCAN labelling. -/
def detect_clusters (labelFn : List (ℚ × ℚ) → List ℤ)
    (centers : List (ℚ × ℚ)) : List Cluster :=
  if centers.length < MIN_CLUSTER_SIZE then []
  else sortClustersDesc (built_clusters (labelFn centers) centers)

/-- Euclidean distance between two points, np.linalg.norm of the row
difference. -/
noncomputable def pointDist (p q : ℚ × ℚ) : ℝ :=
  Real.sqrt ((((p.1 - q.1 : ℚ)) : ℝ) ^ 2 + (((p.2 - q.2 : ℚ)) : ℝ) ^ 2)

/-- Minimum of the distances from c to the stored previous positions:
distances.min() on the numpy distance vector. The empty case is never
reached by calculate_movement, which guards on the lengths first. -/
noncomputable def np_min_dist (c : ℚ × ℚ) : List (ℚ × ℚ) → ℝ
  | [] => 0
  | p :: ps => ps.foldl (fun m q => min m (pointDist c q)) (pointDist c p)

/-- CrowdAnalyzer.calculate_movement: returns the average velocity and the
analyzer with previous_positions overwritten by the current positions. -/
noncomputable def calculate_movement (a : CrowdAnalyzer)
    (current_positions : List (ℚ × ℚ)) (time_delta : ℚ) :
    ℝ × CrowdAnalyzer :=
  match a.previous_positions with
  | none => (0, { a with previous_positions := some current_positions })
  | some previous =>
    if current_positions.length = 0 then
      (0, { a with previous_positions := some current_positions })
    else if previous.length = 0 then
      (0, { a with previous_positions := some current_positions })
    else
      let velocities : List ℝ :=
        current_positions.foldl (fun acc c =>
          let min_dist := np_min_dist c previous
          if min_dist < 200 then
            acc ++ [min_dist / max (time_delta : ℝ) 0.001]
          else acc) []
      (if velocities.length = 0 then 0
       else velocities.sum / (velocities.length : ℝ),
       { a with previous_positions := some current_positions })

/-- CrowdMetrics dataclass. -/
structure CrowdMetrics where
  total_count : ℕ
  density_score : ℚ
  risk_level : RiskLevel
  risk_score : ℝ
  anomaly_type : AnomalyType
  high_density_zones : List Zone
  clusters : List Cluster
  avg_velocity : ℝ
  frame_area : ℕ
  timestamp : String

/-- CrowdAnalyzer.analyze. Density, zones and clusters are rational-valued
computations; the velocity path is real-valued, so the risk classifier is
instantiated at the reals with the density score cast in. The possible
IndexError of detect_high_density_zones propagates; every other step is
total. -/
noncomputable def analyze (labelFn : List (ℚ × ℚ) → List ℤ)
    (a : CrowdAnalyzer) (detections : List Detection) (timestamp : String)
    (time_delta : ℚ) : Except String (CrowdMetrics × CrowdAnalyzer) :=
  let person_count := detections.length
  let centers := detections.map Detection.center
  let density_score : ℚ := calculate_density_score a person_count
  match detect_high_density_zones a centers with
  | .error e => .error e
  | .ok high_density_zones =>
    let clusters := detect_clusters labelFn centers
    let va := calculate_movement a centers time_delta
    let rra := classify_risk (α := ℝ) person_count (density_score : ℝ)
      high_density_zones va.1
    .ok ({ total_count := person_count
           density_score := density_score
           risk_level := rra.1
           risk_score := rra.2.1
           anomaly_type := rra.2.2
           high_density_zones := high_density_zones
           clusters := clusters
           avg_velocity := round2 va.1
           frame_area := a.frame_area
           timestamp := timestamp }, va.2)

/-- Specification-side quantity of 4.1: people per square meter, count
divided by max of the assumed square-meter area and one. -/
def peoplePerSqm (a : CrowdAnalyzer) (person_count : ℕ) : ℚ :=
  (person_count : ℚ) / max ((a.frame_area : ℚ) / 10000) 1

/-- Specification-side risk total of 4.4: the sum of the four factors of
the claim, density times 0.4 plus the capped zone, velocity and count
factors. -/
def riskRaw {α : Type} [LinearOrderedField α] (person_count : ℕ)
    (density_score : α) (high_density_zones : List Zone) (avg_velocity : α) : α :=
  density_score * 0.4
    + min ((high_density_zones.length : α) * 10) 30
    + min (avg_velocity / (ANOMALY_MOVEMENT_THRESHOLD : α) * 20) 20
    + min ((person_count : α) / 100 * 10) 10

/-- Specification-side level thresholds of 4.4: inclusive lower bounds
25, 50 and 75. -/
def riskLevelOf {α : Type} [LinearOrderedField α] (s : α) : RiskLevel :=
  if s < 25 then RiskLevel.LOW
  else if s < 50 then RiskLevel.MEDIUM
  else if s < 75 then RiskLevel.HIGH
  else RiskLevel.CRITICAL

/-- Specification-side guard chain for the anomaly type, before the
critical override: sudden movement, high density, clustering, normal, in
this priority order. -/
def chainAnomaly {α : Type} [LinearOrderedField α] (density_score : α)
    (high_density_zones : List Zone) (avg_velocity : α) : AnomalyType :=
  if (ANOMALY_MOVEMENT_THRESHOLD : α) < avg_velocity then AnomalyType.SUDDEN_MOVEMENT
  else if 3 < high_density_zones.length then AnomalyType.HIGH_DENSITY
  else if (70 : α) < density_score then AnomalyType.CLUSTERING
  else AnomalyType.NORMAL

/-- Specification-side matched velocities of 4.3: one velocity per current
point whose minimum Euclidean distance to the stored previous points is
strictly below 200 pixels. -/
noncomputable def matchedVelocities (previous current : List (ℚ × ℚ))
    (time_delta : ℚ) : List ℝ :=
  current.filterMap (fun c =>
    if np_min_dist c previous < 200 then
      some (np_min_dist c previous / max (time_delta : ℝ) 0.001)
    else none)

/-- Specification-side mean of 4.3: arithmetic mean of the sample, zero
when the sample is empty. -/
noncomputable def meanVelocity (vs : List ℝ) : ℝ :=
  if vs.length = 0 then 0 else vs.sum / (vs.length : ℝ)

/-- Metrics returned by analyze on an empty detections list. -/
def emptyMetrics (a : CrowdAnalyzer) (timestamp : String) : CrowdMetrics :=
  { total_count := 0
    density_score := 0
    risk_level := RiskLevel.LOW
    risk_score := 0
    anomaly_type := AnomalyType.NORMAL
    high_density_zones := []
    clusters := []
    avg_velocity := 0
    frame_area := a.frame_area
    timestamp := timestamp }

/-- Analyzer with previous_positions overwritten. -/
def withPrev (a : CrowdAnalyzer) (ps : List (ℚ × ℚ)) : CrowdAnalyzer :=
  { a with previous_positions := some ps }

/-- A concrete labelling function usable where detect_clusters never
reaches the clustering branch. -/
def trivialLabels : List (ℚ × ℚ) → List ℤ := fun _ => []

/-- The five detections of the test scenario in section 8 of the spec. -/
def scenarioDetections : List Detection :=
  [{ center := (100, 100) }, { center := (120, 105) }, { center := (105, 120) },
   { center := (600, 400) }, { center := (605, 405) }]

/-- Centers of the five scenario detections. -/
def scenarioCenters : List (ℚ × ℚ) :=
  [(100, 100), (120, 105), (105, 120), (600, 400), (605, 405)]


lemma halfEvenRound_cases {α : Type} [LinearOrderedField α] [FloorRing α] (x : α) :
    halfEvenRound x = ⌊x⌋ ∨ halfEvenRound x = ⌊x⌋ + 1 := by
  unfold halfEvenRound
  dsimp only
  split_ifs <;> simp

lemma halfEvenRound_nonneg {α : Type} [LinearOrderedField α] [FloorRing α]
    {x : α} (hx : 0 ≤ x) : 0 ≤ halfEvenRound x := by
  have h0 : 0 ≤ ⌊x⌋ := Int.floor_nonneg.mpr hx
  rcases halfEvenRound_cases x with h | h <;> rw [h] <;> omega

lemma halfEvenRound_le {α : Type} [LinearOrderedField α] [FloorRing α]
    {x : α} {m : ℤ} (hx : x ≤ (m : α)) : halfEvenRound x ≤ m := by
  have hf : ⌊x⌋ ≤ m := by
    have h := Int.floor_mono hx
    simpa using h
  have hfx : (⌊x⌋ : α) ≤ x := Int.floor_le x
  unfold halfEvenRound
  dsimp only
  split_ifs with h1 h2 h3
  · exact hf
  · have h4 : (⌊x⌋ : α) + 1 / 2 ≤ x := by
      have h5 := not_lt.mp h1
      linarith
    have h5 : (⌊x⌋ : α) < (m : α) := by linarith
    have h6 : ⌊x⌋ < m := by exact_mod_cast h5
    omega
  · exact hf
  · have h4 : (⌊x⌋ : α) + 1 / 2 ≤ x := by
      have h5 := not_lt.mp h1
      linarith
    have h5 : (⌊x⌋ : α) < (m : α) := by linarith
    have h6 : ⌊x⌋ < m := by exact_mod_cast h5
    omega

lemma round2_nonneg {α : Type} [LinearOrderedField α] [FloorRing α]
    {x : α} (hx : 0 ≤ x) : 0 ≤ round2 x := by
  unfold round2
  have h : 0 ≤ halfEvenRound (x * 100) :=
    halfEvenRound_nonneg (by positivity)
  exact div_nonneg (by exact_mod_cast h) (by norm_num)

lemma round2_le_hundred {α : Type} [LinearOrderedField α] [FloorRing α]
    {x : α} (hx : x ≤ 100) : round2 x ≤ 100 := by
  unfold round2
  have h : halfEvenRound (x * 100) ≤ 10000 := halfEvenRound_le (by push_cast; linarith)
  have h2 : ((halfEvenRound (x * 100) : ℤ) : α) ≤ 10000 := by exact_mod_cast h
  rw [div_le_iff₀ (by norm_num : (0:α) < 100)]
  linarith

lemma round2_zero {α : Type} [LinearOrderedField α] [FloorRing α] :
    round2 (0 : α) = 0 := by
  norm_num [round2, halfEvenRound]

lemma calculate_density_score_nonneg {α : Type} [LinearOrderedField α] [FloorRing α]
    (a : CrowdAnalyzer) (n : ℕ) : 0 ≤ calculate_density_score (α := α) a n := by
  unfold calculate_density_score
  dsimp only
  split_ifs
  · exact le_refl 0
  · have hm : (0 : α) < max ((a.frame_area : α) / 10000) 1 :=
      lt_of_lt_of_le zero_lt_one (le_max_right _ 1)
    have hd : 0 ≤ (n : α) / max ((a.frame_area : α) / 10000) 1 :=
      div_nonneg (Nat.cast_nonneg n) hm.le
    exact round2_nonneg (le_min (by nlinarith) (by norm_num))

lemma calculate_density_score_le_hundred {α : Type} [LinearOrderedField α] [FloorRing α]
    (a : CrowdAnalyzer) (n : ℕ) : calculate_density_score (α := α) a n ≤ 100 := by
  unfold calculate_density_score
  dsimp only
  split_ifs
  · norm_num
  · exact round2_le_hundred (min_le_right _ 100)

lemma calculate_density_score_zero (a : CrowdAnalyzer) :
    calculate_density_score (α := ℚ) a 0 = 0 := by
  unfold calculate_density_score
  dsimp only
  split_ifs
  · rfl
  · rw [show ((0 : ℕ) : ℚ) / max ((a.frame_area : ℚ) / 10000) 1 / 2 * 100 = 0 by
        norm_num,
      min_eq_left (by norm_num : (0 : ℚ) ≤ 100), round2_zero]

lemma classify_risk_score_eq {α : Type} [LinearOrderedField α] [FloorRing α]
    (count : ℕ) (d : α) (zones : List Zone) (v : α) :
    (classify_risk count d zones v).2.1 =
      round2 (min (riskRaw count d zones v) 100) := by
  simp [classify_risk, riskRaw, zero_add, add_assoc]

lemma classify_risk_level_eq {α : Type} [LinearOrderedField α] [FloorRing α]
    (count : ℕ) (d : α) (zones : List Zone) (v : α) :
    (classify_risk count d zones v).1 =
      riskLevelOf (min (riskRaw count d zones v) 100) := by
  simp [classify_risk, riskRaw, riskLevelOf, zero_add, add_assoc]

lemma riskRaw_nonneg {α : Type} [LinearOrderedField α] (count : ℕ)
    {d v : α} (zones : List Zone) (hd : 0 ≤ d) (hv : 0 ≤ v) :
    0 ≤ riskRaw count d zones v := by
  unfold riskRaw
  have h1 : 0 ≤ d * (0.4 : α) := mul_nonneg hd (by norm_num)
  have h2 : 0 ≤ min ((zones.length : α) * 10) 30 :=
    le_min (by positivity) (by norm_num)
  have h3 : 0 ≤ min (v / (ANOMALY_MOVEMENT_THRESHOLD : α) * 20) 20 :=
    le_min (mul_nonneg (div_nonneg hv (Nat.cast_nonneg _)) (by norm_num)) (by norm_num)
  have h4 : 0 ≤ min ((count : α) / 100 * 10) 10 :=
    le_min (by positivity) (by norm_num)
  linarith

lemma classify_risk_score_bounds {α : Type} [LinearOrderedField α] [FloorRing α]
    (count : ℕ) {d v : α} (zones : List Zone) (hd : 0 ≤ d) (hv : 0 ≤ v) :
    0 ≤ (classify_risk count d zones v).2.1 ∧
      (classify_risk count d zones v).2.1 ≤ 100 := by
  rw [classify_risk_score_eq]
  constructor
  · exact round2_nonneg (le_min (riskRaw_nonneg count zones hd hv) (by norm_num))
  · exact round2_le_hundred (min_le_right _ 100)

lemma classify_risk_zero :
    classify_risk (α := ℝ) 0 0 [] 0 = (RiskLevel.LOW, 0, AnomalyType.NORMAL) := by
  norm_num [classify_risk, ANOMALY_MOVEMENT_THRESHOLD, round2, halfEvenRound]
  decide

lemma calculate_movement_nil (a : CrowdAnalyzer) (td : ℚ) :
    calculate_movement a [] td = (0, withPrev a []) := by
  cases h : a.previous_positions <;> simp [calculate_movement, h, withPrev]

lemma calculate_movement_prev_nil {a : CrowdAnalyzer} (cur : List (ℚ × ℚ))
    (td : ℚ) (h : a.previous_positions = some []) :
    calculate_movement a cur td = (0, withPrev a cur) := by
  cases cur <;> simp [calculate_movement, h, withPrev]

lemma detect_high_density_zones_nil (a : CrowdAnalyzer) :
    detect_high_density_zones a [] = .ok [] := rfl

lemma detect_clusters_nil (lf : List (ℚ × ℚ) → List ℤ) :
    detect_clusters lf [] = [] := rfl

lemma analyze_nil (lf : List (ℚ × ℚ) → List ℤ) (a : CrowdAnalyzer)
    (t : String) (td : ℚ) :
    analyze lf a [] t td = .ok (emptyMetrics a t, withPrev a []) := by
  simp [analyze, detect_high_density_zones_nil, detect_clusters_nil,
    calculate_movement_nil, calculate_density_score_zero, classify_risk_zero,
    emptyMetrics, withPrev, round2_zero]

lemma peoplePerSqm_w1 : peoplePerSqm (mkCrowdAnalyzer (100, 100)) 2 = 2 := by
  norm_num [peoplePerSqm, mkCrowdAnalyzer, CrowdAnalyzer.frame_area]

/-- Claim C1, corrected: for n on an analyzer with frame_area > 0,
calculate_density_score converts the pixel area to square meters with
10000 pixels per square meter, computes people_per_sqm as n over
max(area_sqm, 1), normalizes linearly so that 2 people per square meter
maps to 100 (hence 0.5 people per square meter maps to 25, not 50),
clamps at 100 and rounds to 2 decimals; frame_area = 0 gives 0.0. -/
theorem claim_C1_density_score_formula (a : CrowdAnalyzer) (n : ℕ) :
    (a.frame_area = 0 → calculate_density_score (α := ℚ) a n = 0) ∧
    (a.frame_area ≠ 0 →
      calculate_density_score (α := ℚ) a n =
        round2 (min (peoplePerSqm a n / 2 * 100) 100) ∧
      (peoplePerSqm a n = 2 → calculate_density_score (α := ℚ) a n = 100) ∧
      (peoplePerSqm a n = 1 / 2 → calculate_density_score (α := ℚ) a n = 25)) := by
  constructor
  · intro h
    unfold calculate_density_score
    rw [if_pos h]
  · intro h
    have heq : calculate_density_score (α := ℚ) a n =
        round2 (min (peoplePerSqm a n / 2 * 100) 100) := by
      unfold calculate_density_score peoplePerSqm
      rw [if_neg h]
    refine ⟨heq, ?_, ?_⟩
    · intro h2
      rw [heq, h2]
      norm_num [round2, halfEvenRound]
    · intro h2
      rw [heq, h2]
      norm_num [round2, halfEvenRound]

/-- Claim C1 counterexample: on a 200 x 100 frame with one person the
density is exactly 0.5 people per square meter, and the returned score is
25, not the 50 stated by the claim. -/
theorem claim_C1_counterexample :
    peoplePerSqm (mkCrowdAnalyzer (200, 100)) 1 = 1 / 2 ∧
    calculate_density_score (α := ℚ) (mkCrowdAnalyzer (200, 100)) 1 = 25 ∧
    (25 : ℚ) ≠ 50 := by
  refine ⟨?_, ?_, by norm_num⟩
  · norm_num [peoplePerSqm, mkCrowdAnalyzer, CrowdAnalyzer.frame_area]
  · norm_num [calculate_density_score, mkCrowdAnalyzer, CrowdAnalyzer.frame_area,
      round2, halfEvenRound]

/-- Witness for claim C1 at concrete inputs: a zero-area analyzer returns
0.0, and on a 100 x 100 frame with 2 people the density is exactly 2
people per square meter and the score is 100. -/
theorem claim_C1_witness :
    (mkCrowdAnalyzer (0, 100)).frame_area = 0 ∧
    calculate_density_score (α := ℚ) (mkCrowdAnalyzer (0, 100)) 3 = 0 ∧
    (mkCrowdAnalyzer (100, 100)).frame_area ≠ 0 ∧
    peoplePerSqm (mkCrowdAnalyzer (100, 100)) 2 = 2 ∧
    calculate_density_score (α := ℚ) (mkCrowdAnalyzer (100, 100)) 2 = 100 :=
  ⟨rfl, (claim_C1_density_score_formula _ 3).1 rfl, by decide, peoplePerSqm_w1,
    ((claim_C1_density_score_formula _ 2).2 (by decide)).2.1 peoplePerSqm_w1⟩

/-- Claim C2, corrected: for density_score >= 0 and avg_velocity >= 0,
classify_risk computes the risk score as the stated sum of four factors
capped at 100 and rounded to 2 decimals, assigns the level by the
inclusive thresholds 25, 50, 75, and the result lies in the interval
from 0 to 100; the code applies only the upper cap, so without the
density_score >= 0 restriction the lower bound 0 fails. -/
theorem claim_C2_risk_score (count : ℕ) (d : ℚ) (zones : List Zone) (v : ℚ)
    (hd : 0 ≤ d) (hv : 0 ≤ v) :
    (classify_risk (α := ℚ) count d zones v).2.1 =
      round2 (min (riskRaw count d zones v) 100) ∧
    (classify_risk (α := ℚ) count d zones v).1 =
      riskLevelOf (min (riskRaw count d zones v) 100) ∧
    0 ≤ (classify_risk (α := ℚ) count d zones v).2.1 ∧
    (classify_risk (α := ℚ) count d zones v).2.1 ≤ 100 :=
  ⟨classify_risk_score_eq count d zones v, classify_risk_level_eq count d zones v,
    (classify_risk_score_bounds count zones hd hv).1,
    (classify_risk_score_bounds count zones hd hv).2⟩

/-- Claim C2 counterexample: at density_score = -100 (count 0, no zones,
velocity 0) the returned risk score is -40, so the total is not clamped
to the interval from 0 to 100 as the claim states. -/
theorem claim_C2_counterexample :
    (classify_risk (α := ℚ) 0 (-100) [] 0).2.1 = -40 ∧
    ¬ 0 ≤ (classify_risk (α := ℚ) 0 (-100) [] 0).2.1 := by
  have h : (classify_risk (α := ℚ) 0 (-100) [] 0).2.1 = -40 := by
    norm_num [classify_risk, ANOMALY_MOVEMENT_THRESHOLD, round2, halfEvenRound]
  exact ⟨h, by rw [h]; norm_num⟩

/-- Witness for claim C2 at count 3, density 0, no zones, velocity 0. -/
theorem claim_C2_witness :
    (0 : ℚ) ≤ 0 ∧
    ((classify_risk (α := ℚ) 3 0 [] 0).2.1 =
        round2 (min (riskRaw 3 (0 : ℚ) [] 0) 100) ∧
      (classify_risk (α := ℚ) 3 0 [] 0).1 =
        riskLevelOf (min (riskRaw 3 (0 : ℚ) [] 0) 100) ∧
      0 ≤ (classify_risk (α := ℚ) 3 0 [] 0).2.1 ∧
      (classify_risk (α := ℚ) 3 0 [] 0).2.1 ≤ 100) :=
  ⟨le_refl 0, claim_C2_risk_score 3 0 [] 0 (le_refl 0) (le_refl 0)⟩

/-- Claim C3: the anomaly type equals the ordered guard chain sudden
movement, high density, clustering, normal, with first match winning,
except that whenever the computed risk level is CRITICAL the returned
anomaly type is RUSH_BEHAVIOR. -/
theorem claim_C3_anomaly_priority (count : ℕ) (d : ℚ) (zones : List Zone) (v : ℚ) :
    (classify_risk (α := ℚ) count d zones v).2.2 =
      if (classify_risk (α := ℚ) count d zones v).1 = RiskLevel.CRITICAL then
        AnomalyType.RUSH_BEHAVIOR
      else chainAnomaly d zones v := rfl

/-- Claim C5: analyze on an empty detections list always succeeds and
returns density 0, no zones, no clusters, velocity 0, risk level LOW and
anomaly NORMAL, for every analyzer state, timestamp and time delta. -/
theorem claim_C5_empty_detections (lf : List (ℚ × ℚ) → List ℤ)
    (a : CrowdAnalyzer) (t : String) (td : ℚ) :
    analyze lf a [] t td =
      .ok ({ total_count := 0, density_score := 0, risk_level := RiskLevel.LOW,
             risk_score := 0, anomaly_type := AnomalyType.NORMAL,
             high_density_zones := [], clusters := [], avg_velocity := 0,
             frame_area := a.frame_area, timestamp := t },
           { a with previous_positions := some [] }) :=
  analyze_nil lf a t td

/-- Claim C7: the density score, and the risk score computed from it, lie
in the closed interval from 0 to 100 for every analyzer state, count,
zone list and nonnegative velocity. -/
theorem claim_C7_scores_in_range (a : CrowdAnalyzer) (n : ℕ) (zones : List Zone)
    (v : ℚ) (hv : 0 ≤ v) :
    0 ≤ calculate_density_score (α := ℚ) a n ∧
    calculate_density_score (α := ℚ) a n ≤ 100 ∧
    0 ≤ (classify_risk (α := ℚ) n (calculate_density_score (α := ℚ) a n) zones v).2.1 ∧
    (classify_risk (α := ℚ) n (calculate_density_score (α := ℚ) a n) zones v).2.1 ≤ 100 :=
  ⟨calculate_density_score_nonneg a n, calculate_density_score_le_hundred a n,
    (classify_risk_score_bounds n zones (calculate_density_score_nonneg a n) hv).1,
    (classify_risk_score_bounds n zones (calculate_density_score_nonneg a n) hv).2⟩

/-- Witness for claim C7 on the 720 x 1280 analyzer with 5 people. -/
theorem claim_C7_witness :
    (0 : ℚ) ≤ 0 ∧
    (0 ≤ calculate_density_score (α := ℚ) (mkCrowdAnalyzer (720, 1280)) 5 ∧
      calculate_density_score (α := ℚ) (mkCrowdAnalyzer (720, 1280)) 5 ≤ 100 ∧
      0 ≤ (classify_risk (α := ℚ) 5
            (calculate_density_score (α := ℚ) (mkCrowdAnalyzer (720, 1280)) 5) [] 0).2.1 ∧
      (classify_risk (α := ℚ) 5
            (calculate_density_score (α := ℚ) (mkCrowdAnalyzer (720, 1280)) 5) [] 0).2.1 ≤ 100) :=
  ⟨le_refl 0, claim_C7_scores_in_range (mkCrowdAnalyzer (720, 1280)) 5 [] 0 (le_refl 0)⟩

lemma foldl_min_le (c : ℚ × ℚ) (l : List (ℚ × ℚ)) (init : ℝ) :
    l.foldl (fun m q => min m (pointDist c q)) init ≤ init ∧
    ∀ r ∈ l, l.foldl (fun m q => min m (pointDist c q)) init ≤ pointDist c r := by
  induction l generalizing init with
  | nil => exact ⟨le_refl _, by simp⟩
  | cons p ps ih =>
    have h := ih (min init (pointDist c p))
    simp only [List.foldl_cons]
    constructor
    · exact le_trans h.1 (min_le_left _ _)
    · intro r hr
      rcases List.mem_cons.mp hr with h1 | h1
      · subst h1
        exact le_trans h.1 (min_le_right _ _)
      · exact h.2 r h1

lemma foldl_min_mem (c : ℚ × ℚ) (l : List (ℚ × ℚ)) (init : ℝ) :
    l.foldl (fun m q => min m (pointDist c q)) init = init ∨
    ∃ r ∈ l, l.foldl (fun m q => min m (pointDist c q)) init = pointDist c r := by
  induction l generalizing init with
  | nil => exact Or.inl rfl
  | cons p ps ih =>
    simp only [List.foldl_cons]
    rcases ih (min init (pointDist c p)) with h | h
    · rcases le_total init (pointDist c p) with h2 | h2
      · left
        rw [h, min_eq_left h2]
      · right
        exact ⟨p, List.mem_cons_self p ps, by rw [h, min_eq_right h2]⟩
    · right
      obtain ⟨r, hr, he⟩ := h
      exact ⟨r, List.mem_cons_of_mem p hr, he⟩

lemma foldl_velocities_eq (prev cur : List (ℚ × ℚ)) (td : ℚ) (acc : List ℝ) :
    cur.foldl (fun acc2 c =>
      if np_min_dist c prev < 200 then
        acc2 ++ [np_min_dist c prev / max (td : ℝ) 0.001]
      else acc2) acc = acc ++ matchedVelocities prev cur td := by
  induction cur generalizing acc with
  | nil => simp [matchedVelocities]
  | cons c cs ih =>
    simp only [List.foldl_cons, matchedVelocities, List.filterMap_cons]
    split_ifs with h
    · rw [ih]
      simp [matchedVelocities]
    · rw [ih]
      simp [matchedVelocities]

lemma filterMap_const_some (cs : List (ℚ × ℚ)) :
    List.filterMap (fun _ => some (0:ℝ)) cs = List.replicate cs.length 0 := by
  induction cs with
  | nil => rfl
  | cons c cs ih => simp [List.filterMap_cons, ih, List.replicate_succ]

lemma matchedVelocities_prev_nil (cur : List (ℚ × ℚ)) (td : ℚ) :
    matchedVelocities [] cur td = List.replicate cur.length 0 := by
  have h : (fun c : ℚ × ℚ => if np_min_dist c [] < 200 then
      some (np_min_dist c [] / max (td : ℝ) 0.001) else none) =
      fun _ => some (0:ℝ) := by
    funext c
    simp only [np_min_dist]
    rw [if_pos (by norm_num : (0:ℝ) < 200)]
    simp
  unfold matchedVelocities
  rw [h, filterMap_const_some]

lemma meanVelocity_replicate_zero (n : ℕ) :
    meanVelocity (List.replicate n 0) = 0 := by
  unfold meanVelocity
  split_ifs with h
  · rfl
  · simp [List.sum_replicate]

/-- Claim C4: calculate_movement stores the current positions and returns
0.0 on a first call or an empty current list; otherwise it returns the
arithmetic mean of the velocities of the current points whose minimum
Euclidean distance to the stored previous points is strictly below 200
pixels, each velocity being that distance divided by max of the time
delta and 0.001, and 0.0 when no point matches; np_min_dist is indeed
the distance to the Euclidean-nearest stored point. -/
theorem claim_C4_movement :
    (∀ (a : CrowdAnalyzer) (cur : List (ℚ × ℚ)) (td : ℚ),
      a.previous_positions = none ∨ cur = [] →
      calculate_movement a cur td =
        (0, { a with previous_positions := some cur })) ∧
    (∀ (a : CrowdAnalyzer) (prev cur : List (ℚ × ℚ)) (td : ℚ),
      a.previous_positions = some prev → cur ≠ [] →
      calculate_movement a cur td =
        (meanVelocity (matchedVelocities prev cur td),
         { a with previous_positions := some cur })) ∧
    (∀ (c q : ℚ × ℚ) (qs : List (ℚ × ℚ)),
      (∃ r ∈ q :: qs, np_min_dist c (q :: qs) = pointDist c r) ∧
      ∀ r ∈ q :: qs, np_min_dist c (q :: qs) ≤ pointDist c r) := by
  refine ⟨?_, ?_, ?_⟩
  · rintro a cur td (h | h)
    · simp [calculate_movement, h]
    · subst h
      exact calculate_movement_nil a td
  · intro a prev cur td h hcur
    match prev with
    | [] =>
      rw [calculate_movement_prev_nil cur td h, matchedVelocities_prev_nil,
        meanVelocity_replicate_zero]
      rfl
    | p :: ps =>
      have hlen : cur.length ≠ 0 := fun hc => hcur (List.length_eq_zero.mp hc)
      simp only [calculate_movement, h]
      rw [if_neg hlen, if_neg (by simp : ((p :: ps : List (ℚ × ℚ))).length ≠ 0)]
      rw [show cur.foldl (fun acc2 c =>
            if np_min_dist c (p :: ps) < 200 then
              acc2 ++ [np_min_dist c (p :: ps) / max (td : ℝ) 0.001]
            else acc2) [] = matchedVelocities (p :: ps) cur td from by
          simpa using foldl_velocities_eq (p :: ps) cur td []]
      rfl
  · intro c q qs
    constructor
    · rcases foldl_min_mem c qs (pointDist c q) with h | h
      · exact ⟨q, List.mem_cons_self q qs, by simpa [np_min_dist] using h⟩
      · obtain ⟨r, hr, he⟩ := h
        exact ⟨r, List.mem_cons_of_mem q hr, by simpa [np_min_dist] using he⟩
    · intro r hr
      rcases List.mem_cons.mp hr with h1 | h1
      · subst h1
        simpa [np_min_dist] using (foldl_min_le c qs (pointDist c r)).1
      · simpa [np_min_dist] using (foldl_min_le c qs (pointDist c q)).2 r h1

/-- Witness for claim C4: a first call stores the single current point and
returns zero; a second call with previous point (0, 0) and current point
(3, 4) takes the nearest-point branch. -/
theorem claim_C4_witness :
    ((mkCrowdAnalyzer (720, 1280)).previous_positions = none ∨
      ([((3:ℚ), (4:ℚ))] : List (ℚ × ℚ)) = []) ∧
    calculate_movement (mkCrowdAnalyzer (720, 1280)) [((3:ℚ), (4:ℚ))] 1 =
      (0, { mkCrowdAnalyzer (720, 1280) with
              previous_positions := some [((3:ℚ), (4:ℚ))] }) ∧
    (withPrev (mkCrowdAnalyzer (720, 1280)) [((0:ℚ), (0:ℚ))]).previous_positions =
      some [((0:ℚ), (0:ℚ))] ∧
    ([((3:ℚ), (4:ℚ))] : List (ℚ × ℚ)) ≠ [] ∧
    calculate_movement (withPrev (mkCrowdAnalyzer (720, 1280)) [((0:ℚ), (0:ℚ))])
        [((3:ℚ), (4:ℚ))] 1 =
      (meanVelocity (matchedVelocities [((0:ℚ), (0:ℚ))] [((3:ℚ), (4:ℚ))] 1),
       { withPrev (mkCrowdAnalyzer (720, 1280)) [((0:ℚ), (0:ℚ))] with
           previous_positions := some [((3:ℚ), (4:ℚ))] }) :=
  ⟨Or.inl rfl, claim_C4_movement.1 _ _ _ (Or.inl rfl), rfl, by simp,
    claim_C4_movement.2.1 _ _ _ _ rfl (by simp)⟩

lemma mem_insertDesc {x c : Cluster} {l : List Cluster} :
    x ∈ insertDesc c l ↔ x = c ∨ x ∈ l := by
  induction l with
  | nil => simp [insertDesc]
  | cons d ds ih =>
    unfold insertDesc
    split_ifs with h
    · simp
    · simp only [List.mem_cons, ih]
      tauto

lemma pairwise_insertDesc {c : Cluster} {l : List Cluster}
    (h : l.Pairwise (fun a b => b.size ≤ a.size)) :
    (insertDesc c l).Pairwise (fun a b => b.size ≤ a.size) := by
  induction l with
  | nil => simp [insertDesc]
  | cons d ds ih =>
    rcases List.pairwise_cons.mp h with ⟨hd, hds⟩
    unfold insertDesc
    split_ifs with hcd
    · refine List.pairwise_cons.mpr ⟨?_, h⟩
      intro y hy
      rcases List.mem_cons.mp hy with h1 | h1
      · subst h1
        exact hcd
      · exact le_trans (hd y h1) hcd
    · refine List.pairwise_cons.mpr ⟨?_, ih hds⟩
      intro y hy
      rcases mem_insertDesc.mp hy with h1 | h1
      · subst h1
        exact le_of_lt (not_le.mp hcd)
      · exact hd y h1

lemma sortClustersDesc_pairwise (l : List Cluster) :
    (sortClustersDesc l).Pairwise (fun a b => b.size ≤ a.size) := by
  induction l with
  | nil => simp [sortClustersDesc]
  | cons c cs ih => exact pairwise_insertDesc ih

lemma filter_insertDesc (c : Cluster) (l : List Cluster) (s : ℕ) :
    (insertDesc c l).filter (fun x => x.size == s) =
      if c.size = s then c :: l.filter (fun x => x.size == s)
      else l.filter (fun x => x.size == s) := by
  induction l with
  | nil =>
    by_cases h : c.size = s <;> simp [insertDesc, List.filter_cons, h]
  | cons d ds ih =>
    unfold insertDesc
    by_cases hdc : d.size ≤ c.size
    · rw [if_pos hdc]
      by_cases h : c.size = s <;> simp [List.filter_cons, h]
    · rw [if_neg hdc]
      have hlt : c.size < d.size := not_le.mp hdc
      by_cases h : c.size = s
      · have hds : d.size ≠ s := by omega
        rw [if_pos h]
        simp [List.filter_cons, ih, h, hds]
      · rw [if_neg h]
        simp [List.filter_cons, ih, h]

lemma filter_sortClustersDesc (l : List Cluster) (s : ℕ) :
    (sortClustersDesc l).filter (fun x => x.size == s) =
      l.filter (fun x => x.size == s) := by
  induction l with
  | nil => rfl
  | cons c cs ih =>
    simp only [sortClustersDesc]
    rw [filter_insertDesc]
    by_cases h : c.size = s <;> simp [List.filter_cons, h, ih]

/-- Claim C8: for every labelling function and every centers list, the
cluster list returned by detect_clusters is ordered by size descending,
and for each size the clusters of that size appear exactly as in the
encounter-order list built by the loop, so equal sizes keep their
encounter order. -/
theorem claim_C8_clusters_sorted (lf : List (ℚ × ℚ) → List ℤ)
    (centers : List (ℚ × ℚ)) :
    (detect_clusters lf centers).Pairwise (fun a b => b.size ≤ a.size) ∧
    ∀ s : ℕ, (detect_clusters lf centers).filter (fun x => x.size == s) =
      (if centers.length < MIN_CLUSTER_SIZE then []
       else built_clusters (lf centers) centers).filter (fun x => x.size == s) := by
  unfold detect_clusters
  split_ifs with h
  · exact ⟨List.Pairwise.nil, fun s => rfl⟩
  · exact ⟨sortClustersDesc_pairwise _, fun s => filter_sortClustersDesc _ s⟩

lemma pyTrunc_nonneg {q : ℚ} (h : 0 ≤ q) : 0 ≤ pyTrunc q := by
  unfold pyTrunc
  rw [if_neg (not_lt.mpr h)]
  exact Int.floor_nonneg.mpr h

lemma npIndex_of_lt {n : ℕ} {i : ℤ} (h0 : 0 ≤ i) (h1 : i < (n : ℤ)) :
    npIndex n i = some i.toNat := by
  unfold npIndex
  rw [if_pos ⟨h0, h1⟩]

lemma tallyCenters_total (gs gh gw : ℕ) (hgh : 1 ≤ gh) (hgw : 1 ≤ gw) :
    ∀ centers : List (ℚ × ℚ), (∀ p ∈ centers, 0 ≤ p.1 ∧ 0 ≤ p.2) →
    ∀ grid, ∃ g, tallyCenters gs gh gw centers grid = .ok g := by
  intro centers
  induction centers with
  | nil => exact fun _ grid => ⟨grid, rfl⟩
  | cons p ps ih =>
    intro hc grid
    have hp := hc p (List.mem_cons_self p ps)
    have hgw1 : (1 : ℤ) ≤ (gw : ℤ) := by exact_mod_cast hgw
    have hgh1 : (1 : ℤ) ≤ (gh : ℤ) := by exact_mod_cast hgh
    have hx0 : 0 ≤ min (pyTrunc (p.1 / (gs : ℚ))) ((gw : ℤ) - 1) :=
      le_min (pyTrunc_nonneg (div_nonneg hp.1 (Nat.cast_nonneg gs))) (by omega)
    have hxlt : min (pyTrunc (p.1 / (gs : ℚ))) ((gw : ℤ) - 1) < (gw : ℤ) :=
      lt_of_le_of_lt (min_le_right _ _) (by omega)
    have hy0 : 0 ≤ min (pyTrunc (p.2 / (gs : ℚ))) ((gh : ℤ) - 1) :=
      le_min (pyTrunc_nonneg (div_nonneg hp.2 (Nat.cast_nonneg gs))) (by omega)
    have hylt : min (pyTrunc (p.2 / (gs : ℚ))) ((gh : ℤ) - 1) < (gh : ℤ) :=
      lt_of_le_of_lt (min_le_right _ _) (by omega)
    unfold tallyCenters
    dsimp only
    rw [npIndex_of_lt hy0 hylt, npIndex_of_lt hx0 hxlt]
    exact ih (fun q hq => hc q (List.mem_cons_of_mem p hq)) _

lemma detect_high_density_zones_total (a : CrowdAnalyzer)
    (centers : List (ℚ × ℚ)) (hgs : 0 < a.grid_size)
    (hh : a.grid_size ≤ a.frame_height) (hw : a.grid_size ≤ a.frame_width)
    (hc : ∀ p ∈ centers, 0 ≤ p.1 ∧ 0 ≤ p.2) :
    ∃ zs, detect_high_density_zones a centers = .ok zs := by
  unfold detect_high_density_zones
  split_ifs with h
  · exact ⟨[], rfl⟩
  · have hgh : 1 ≤ a.frame_height / a.grid_size := (Nat.one_le_div_iff hgs).mpr hh
    have hgw : 1 ≤ a.frame_width / a.grid_size := (Nat.one_le_div_iff hgs).mpr hw
    obtain ⟨g, hg⟩ :=
      tallyCenters_total a.grid_size _ _ hgh hgw centers hc (fun _ _ => 0)
    dsimp only
    rw [hg]
    exact ⟨_, rfl⟩

/-- Claim C9, corrected: analyze raises no error for analyzers whose frame
height and width are at least the (positive) grid size and detections with
nonnegative center coordinates; the restriction is necessary, because a
frame dimension smaller than the grid size yields a grid with zero rows or
columns and the clamp then produces index -1 on an empty numpy axis,
which raises IndexError. -/
theorem claim_C9_analyze_total (lf : List (ℚ × ℚ) → List ℤ)
    (a : CrowdAnalyzer) (dets : List Detection) (t : String) (td : ℚ)
    (hgs : 0 < a.grid_size) (hh : a.grid_size ≤ a.frame_height)
    (hw : a.grid_size ≤ a.frame_width)
    (hc : ∀ d ∈ dets, 0 ≤ d.center.1 ∧ 0 ≤ d.center.2) :
    ∃ r, analyze lf a dets t td = .ok r := by
  have hc2 : ∀ p ∈ dets.map Detection.center, 0 ≤ p.1 ∧ 0 ≤ p.2 := by
    intro p hp
    obtain ⟨d, hd, rfl⟩ := List.mem_map.mp hp
    exact hc d hd
  obtain ⟨zs, hzs⟩ := detect_high_density_zones_total a _ hgs hh hw hc2
  unfold analyze
  dsimp only
  rw [hzs]
  exact ⟨_, rfl⟩

/-- Claim C9 counterexample: on a 40 x 1280 frame (height below the grid
size 50) a single detection at (100, 100) makes analyze raise IndexError,
so analytic computation is not exception-free for every frame size. -/
theorem claim_C9_counterexample :
    analyze trivialLabels (mkCrowdAnalyzer (40, 1280))
      [{ center := (100, 100) }] "t" 1 = .error "IndexError" := by
  have h : detect_high_density_zones (mkCrowdAnalyzer (40, 1280))
      [((100:ℚ), (100:ℚ))] = .error "IndexError" := by
    norm_num [detect_high_density_zones, tallyCenters, npIndex, pyTrunc,
      mkCrowdAnalyzer, DENSITY_GRID_SIZE]
  unfold analyze
  dsimp only
  rw [show List.map Detection.center [{ center := ((100:ℚ), (100:ℚ)) }] =
      [((100:ℚ), (100:ℚ))] from rfl, h]

lemma single_det_nonneg :
    ∀ d ∈ ([{ center := ((100:ℚ), (100:ℚ)) }] : List Detection),
      0 ≤ d.center.1 ∧ 0 ≤ d.center.2 := by
  intro d hd
  simp only [List.mem_singleton] at hd
  subst hd
  exact ⟨by norm_num, by norm_num⟩

/-- Witness for claim C9 on the 720 x 1280 analyzer with one detection. -/
theorem claim_C9_witness :
    0 < (mkCrowdAnalyzer (720, 1280)).grid_size ∧
    (mkCrowdAnalyzer (720, 1280)).grid_size ≤
      (mkCrowdAnalyzer (720, 1280)).frame_height ∧
    (mkCrowdAnalyzer (720, 1280)).grid_size ≤
      (mkCrowdAnalyzer (720, 1280)).frame_width ∧
    (∀ d ∈ ([{ center := ((100:ℚ), (100:ℚ)) }] : List Detection),
      0 ≤ d.center.1 ∧ 0 ≤ d.center.2) ∧
    ∃ r, analyze trivialLabels (mkCrowdAnalyzer (720, 1280))
      [{ center := ((100:ℚ), (100:ℚ)) }] "t" 1 = .ok r :=
  ⟨by decide, by decide, by decide, single_det_nonneg,
    claim_C9_analyze_total _ _ _ _ _ (by decide) (by decide) (by decide)
      single_det_nonneg⟩

lemma analyze_ok_avg_velocity {lf : List (ℚ × ℚ) → List ℤ}
    {a : CrowdAnalyzer} {dets : List Detection} {t : String} {td : ℚ}
    {m : CrowdMetrics} {a2 : CrowdAnalyzer}
    (h : analyze lf a dets t td = .ok (m, a2)) :
    m.avg_velocity = round2 (calculate_movement a (dets.map Detection.center) td).1 := by
  unfold analyze at h
  dsimp only at h
  cases hz : detect_high_density_zones a (dets.map Detection.center) with
  | error e =>
    rw [hz] at h
    exact absurd h (by simp)
  | ok zs =>
    rw [hz] at h
    simp only [Except.ok.injEq, Prod.mk.injEq] at h
    rw [← h.1]

lemma movement_prev_nil_fst {a : CrowdAnalyzer} (cur : List (ℚ × ℚ)) (td : ℚ)
    (h : a.previous_positions = some []) :
    (calculate_movement a cur td).1 = 0 := by
  rw [calculate_movement_prev_nil cur td h]

/-- Claim C10: after an analyze call with an empty detections list the
stored motion history is the empty position set, and the next analyze
call, whatever its detections and time delta, reports avg_velocity 0. -/
theorem claim_C10_empty_resets_motion (lf lf2 : List (ℚ × ℚ) → List ℤ)
    (a a1 a2 : CrowdAnalyzer) (m m2 : CrowdMetrics) (t t2 : String)
    (td td2 : ℚ) (dets : List Detection)
    (h1 : analyze lf a [] t td = .ok (m, a1))
    (h2 : analyze lf2 a1 dets t2 td2 = .ok (m2, a2)) :
    a1.previous_positions = some [] ∧ m2.avg_velocity = 0 := by
  have hn := analyze_nil lf a t td
  rw [hn] at h1
  simp only [Except.ok.injEq, Prod.mk.injEq] at h1
  have hprev : a1.previous_positions = some [] := by
    rw [← h1.2]
    rfl
  refine ⟨hprev, ?_⟩
  rw [analyze_ok_avg_velocity h2, movement_prev_nil_fst _ _ hprev, round2_zero]

/-- Witness for claim C10: two consecutive empty-detections calls on the
720 x 1280 analyzer. -/
theorem claim_C10_witness :
    analyze trivialLabels (mkCrowdAnalyzer (720, 1280)) [] "a" 1 =
      .ok (emptyMetrics (mkCrowdAnalyzer (720, 1280)) "a",
           withPrev (mkCrowdAnalyzer (720, 1280)) []) ∧
    analyze trivialLabels (withPrev (mkCrowdAnalyzer (720, 1280)) []) [] "b" 1 =
      .ok (emptyMetrics (withPrev (mkCrowdAnalyzer (720, 1280)) []) "b",
           withPrev (withPrev (mkCrowdAnalyzer (720, 1280)) []) []) ∧
    ((withPrev (mkCrowdAnalyzer (720, 1280)) []).previous_positions = some [] ∧
      (emptyMetrics (withPrev (mkCrowdAnalyzer (720, 1280)) []) "b").avg_velocity = 0) :=
  ⟨analyze_nil trivialLabels (mkCrowdAnalyzer (720, 1280)) "a" 1,
    analyze_nil trivialLabels (withPrev (mkCrowdAnalyzer (720, 1280)) []) "b" 1,
    claim_C10_empty_resets_motion trivialLabels trivialLabels
      (mkCrowdAnalyzer (720, 1280)) (withPrev (mkCrowdAnalyzer (720, 1280)) [])
      (withPrev (withPrev (mkCrowdAnalyzer (720, 1280)) []) [])
      (emptyMetrics (mkCrowdAnalyzer (720, 1280)) "a")
      (emptyMetrics (withPrev (mkCrowdAnalyzer (720, 1280)) []) "b")
      "a" "b" 1 1 []
      (analyze_nil trivialLabels (mkCrowdAnalyzer (720, 1280)) "a" 1)
      (analyze_nil trivialLabels (withPrev (mkCrowdAnalyzer (720, 1280)) []) "b" 1)⟩

set_option maxHeartbeats 1000000 in
lemma zones_scenario :
    detect_high_density_zones (mkCrowdAnalyzer (720, 1280)) scenarioCenters = .ok [] := by
  norm_num [detect_high_density_zones, scenarioCenters, mkCrowdAnalyzer,
    DENSITY_GRID_SIZE, tallyCenters, npIndex, pyTrunc, HIGH_DENSITY_THRESHOLD]
  decide

lemma clusters_scenario (lf : List (ℚ × ℚ) → List ℤ) :
    detect_clusters lf scenarioCenters = [] := by
  simp [detect_clusters, scenarioCenters, MIN_CLUSTER_SIZE]

lemma movement_scenario (td : ℚ) :
    calculate_movement (mkCrowdAnalyzer (720, 1280)) scenarioCenters td =
      (0, withPrev (mkCrowdAnalyzer (720, 1280)) scenarioCenters) := rfl

lemma density_scenario :
    calculate_density_score (α := ℚ) (mkCrowdAnalyzer (720, 1280)) 5 = 2.71 := by
  norm_num [calculate_density_score, mkCrowdAnalyzer, CrowdAnalyzer.frame_area,
    round2, halfEvenRound]

lemma classify_scenario :
    classify_risk (α := ℝ) 5 ((2.71 : ℚ) : ℝ) [] 0 =
      (RiskLevel.LOW, 1.58, AnomalyType.NORMAL) := by
  norm_num [classify_risk, ANOMALY_MOVEMENT_THRESHOLD, round2, halfEvenRound]
  decide

set_option maxHeartbeats 1000000 in
/-- Claim C6: the first analyze call on a fresh 720 x 1280 analyzer with
the five scenario detections returns exactly density 2.71, no zones, no
clusters, velocity 0.0, risk score 1.58, level LOW, anomaly NORMAL, for
the configured grid size 50, density threshold 5 and cluster minimum 10. -/
theorem claim_C6_scenario (lf : List (ℚ × ℚ) → List ℤ) (t : String) (td : ℚ) :
    analyze lf (mkCrowdAnalyzer (720, 1280)) scenarioDetections t td =
      .ok ({ total_count := 5, density_score := 2.71, risk_level := RiskLevel.LOW,
             risk_score := 1.58, anomaly_type := AnomalyType.NORMAL,
             high_density_zones := [], clusters := [], avg_velocity := 0,
             frame_area := 921600, timestamp := t },
           withPrev (mkCrowdAnalyzer (720, 1280)) scenarioCenters) := by
  unfold analyze
  dsimp only
  simp only [show List.map Detection.center scenarioDetections = scenarioCenters from rfl,
    show scenarioDetections.length = 5 from rfl]
  rw [zones_scenario]
  simp only [clusters_scenario, movement_scenario, density_scenario, classify_scenario,
    round2_zero]
  norm_num [CrowdAnalyzer.frame_area, mkCrowdAnalyzer]

end CrowdGuard
